import Mathlib

/-!
# wtf: orchestration layer (`app/wtf_app.go`) and the GitLab project loader
(`modules/gitlab/gitlab_project.go`)

A shallow embedding of the two source files.  Go statements with an effect on
the outside world (terminal, process, goroutine launches) are recorded, in
program order, in a list of `Effect`s; a function that may end the process or
panic returns an `Outcome`.
-/

namespace Wtf

/-! ## Widgets and the focus tracker (collaborators of `WtfApp`) -/

/-- Modelled from the spec: `wtf.Wtfable`, the widget capability interface, is declared
outside `app/wtf_app.go`.  The spec calls it WidgetHandle: an opaque reference (`name`)
with an optional single-character focus key, an enabled flag and, for the Tab cycle,
"explicit focusability". -/
structure Wtfable where
  name : String
  focusKey : Option Char
  enabled : Bool
  focusable : Bool
deriving DecidableEq, Repr

/-- Modelled from the spec: the two states of the focus state machine,
`Unfocused` and `FocusedOn(widget)`; the widget is named by its position in the
declared order of its generation. -/
inductive FocusState where
  | Unfocused
  | FocusedOn (widget : Nat)
deriving DecidableEq, Repr

/-- Modelled from the spec: `FocusTracker` (declared outside `app/wtf_app.go`), the
state machine of spec section 4.2 over the widgets of one generation. -/
structure FocusTracker where
  widgets : List Wtfable
  state : FocusState
deriving DecidableEq, Repr

namespace FocusTracker

/-- Modelled from the spec: the field `IsFocused` read by `keyboardIntercept`;
true exactly in the states `FocusedOn(w)`. -/
def IsFocused (tracker : FocusTracker) : Bool :=
  match tracker.state with
  | .Unfocused => false
  | .FocusedOn _ => true

/-- Modelled from the spec: a widget takes part in the Tab cycle when it has "a non-empty
focus key or explicit focusability". -/
def isFocusable (w : Wtfable) : Bool :=
  w.focusKey.isSome || w.focusable

/-- Modelled from the spec: positions of the focusable widgets, in declared order. -/
def focusables (tracker : FocusTracker) : List Nat :=
  (List.range tracker.widgets.length).filter
    (fun i => match tracker.widgets.get? i with
      | some w => isFocusable w
      | none => false)

/-- Modelled from the spec: `Next`, the forward cycle: "advances to the next focusable
widget in declared order, wrapping past the last back to the first.  If no widget is
focusable, the transition is a no-op". -/
def Next (tracker : FocusTracker) : FocusTracker :=
  match tracker.focusables with
  | [] => tracker
  | first :: rest =>
    match tracker.state with
    | .Unfocused => { tracker with state := .FocusedOn first }
    | .FocusedOn w =>
      match (first :: rest).find? (fun i => decide (w < i)) with
      | some i => { tracker with state := .FocusedOn i }
      | none => { tracker with state := .FocusedOn first }

/-- Modelled from the spec: `Prev`, the backward cycle: "symmetric, wraps to the last
focusable widget". -/
def Prev (tracker : FocusTracker) : FocusTracker :=
  match tracker.focusables.reverse with
  | [] => tracker
  | last :: rest =>
    match tracker.state with
    | .Unfocused => { tracker with state := .FocusedOn last }
    | .FocusedOn w =>
      match (last :: rest).find? (fun i => decide (i < w)) with
      | some i => { tracker with state := .FocusedOn i }
      | none => { tracker with state := .FocusedOn last }

/-- Modelled from the spec: `None`, "unconditionally transitions to `Unfocused`". -/
def None (tracker : FocusTracker) : FocusTracker :=
  { tracker with state := .Unfocused }

/-- Modelled from the spec: does widget `w` answer to the pressed character?  It must be
enabled and its focus key must be that single character. -/
def answersTo (char : String) (w : Wtfable) : Bool :=
  w.enabled && (match w.focusKey with
    | some k => decide (String.singleton k = char)
    | none => false)

/-- Modelled from the spec: `FocusOn`, the direct key match: "if its character equals
some enabled widget's FocusKey, transition to FocusedOn(that widget)" and report the
match; "if no widget matches" report no match and leave the state alone. -/
def FocusOn (tracker : FocusTracker) (char : String) : Bool × FocusTracker :=
  match tracker.widgets.findIdx? (answersTo char) with
  | some i => (true, { tracker with state := .FocusedOn i })
  | none => (false, tracker)

end FocusTracker

/-! ## Effects, outcomes and the redraw channel -/

/-- Observable actions of the orchestration layer, in the order the program performs them.
An `app` argument is the identity (address) of the `WtfApp` concerned, a `widget` argument
the position of a widget in that app's `widgets` slice. -/
inductive Effect where
  | newPages
  | makeRedrawChan (app : Nat)
  | setBeforeDrawFunc
  | makeWidgets (app : Nat)
  | println (msg : String)
  | osExit (code : Nat)
  | newDisplay (app : Nat)
  | newFocusTracker (app : Nat)
  | newModuleValidator (app : Nat)
  | newGitHubUser (app : Nat)
  | addPage (app : Nat)
  | validate (app : Nat)
  | firstWidget (app : Nat)
  | setBackgroundColor (app : Nat)
  | setInputCapture (app : Nat)
  | setRoot (app : Nat)
  | goHandleRedraws (app : Nat)
  | widgetStop (app : Nat) (widget : Nat)
  | closeRedrawChan (app : Nat)
  | tviewStop
  | displayExitMessage
  | goRefresh (app : Nat) (widget : Nat)
  | goSchedule (app : Nat) (widget : Nat)
  | goWatchForConfigChanges (app : Nat)
  | goGhUserLoad (app : Nat)
  | loadWtfConfigFile (path : String)
  | utilsInit
  | draw
deriving DecidableEq, Repr

/-- How a call ends: it returns a value, the process exits (`os.Exit`), or the goroutine
panics. -/
inductive Outcome (α : Type) where
  | ok (value : α)
  | exit (code : Nat)
  | panic (msg : String)
deriving DecidableEq, Repr

/-- The channel created by `make(chan bool, 1)`: one buffer slot and the closed flag. -/
structure RedrawChan where
  slot : Option Bool
  closed : Bool
deriving DecidableEq, Repr

/-- The parsed configuration (`*config.Config`, an external type): only the identity of the
snapshot matters to the orchestration layer. -/
structure Config where
  snapshot : Nat
deriving DecidableEq, Repr

/-- The fields of `WtfApp` that the functions below read or write.  `id` stands for the
address of the struct (every `NewWtfApp` call allocates a new one). -/
structure WtfApp where
  id : Nat
  config : Config
  configFilePath : String
  focusTracker : FocusTracker
  widgets : List Wtfable
  redrawChan : RedrawChan
deriving DecidableEq, Repr

/-- The result of running a method of `WtfApp`: the receiver afterwards, what was done,
and how the call ended. -/
structure Step (α : Type) where
  wtfApp : WtfApp
  effects : List Effect
  out : Outcome α
deriving DecidableEq, Repr

/-! ## Keyboard routing -/

/-- The key codes `keyboardIntercept` switches on; `rune` is `tcell.KeyRune` (a printable
character), `other` any further key code. -/
inductive Key where
  | ctrlC
  | ctrlR
  | ctrlSpace
  | tab
  | backtab
  | esc
  | rune
  | other
deriving DecidableEq, Repr

/-- The part of `*tcell.EventKey` that is read: `event.Key()` and `event.Rune()`.  Any key
code can come with any rune. -/
structure EventKey where
  key : Key
  rune : Char
deriving DecidableEq, Repr

namespace WtfApp

/-- The method `stopAllWidgets`: `widget.Stop()` for every widget, in slice order.  Each
call returns: the widget interface makes `Stop()` safe to repeat. -/
def stopAllWidgets (wtfApp : WtfApp) : List Effect :=
  (List.range wtfApp.widgets.length).map (Effect.widgetStop wtfApp.id)

/-- The method `Stop`: stop all widgets, then `close(wtfApp.redrawChan)`; closing a closed
channel panics. -/
def Stop (wtfApp : WtfApp) : Step Unit :=
  if wtfApp.redrawChan.closed then
    { wtfApp := wtfApp
      effects := wtfApp.stopAllWidgets
      out := .panic "close of closed channel" }
  else
    { wtfApp := { wtfApp with redrawChan := { wtfApp.redrawChan with closed := true } }
      effects := wtfApp.stopAllWidgets ++ [.closeRedrawChan wtfApp.id]
      out := .ok () }

/-- The method `Exit`: `Stop`, stop the tview application, print the exit message,
`os.Exit(0)`. -/
def Exit (wtfApp : WtfApp) : Step Unit :=
  let s := wtfApp.Stop
  match s.out with
  | .ok _ =>
    { wtfApp := s.wtfApp
      effects := s.effects ++ [.tviewStop, .displayExitMessage, .osExit 0]
      out := .exit 0 }
  | .exit code => { s with out := .exit code }
  | .panic msg => { s with out := .panic msg }

/-- The loop of `refreshAllWidgets`: `go widget.Refresh()` for every widget. -/
def refreshAllWidgets (wtfApp : WtfApp) : List Effect :=
  (List.range wtfApp.widgets.length).map (Effect.goRefresh wtfApp.id)

/-- Lines 179-190 of `keyboardIntercept`: with no widget focused, "q" quits and "/" is
swallowed; in every other case the event is returned. -/
def globalShortcut (wtfApp : WtfApp) (effects : List Effect) (event : EventKey) :
    Step (Option EventKey) :=
  if !wtfApp.focusTracker.IsFocused then
    if String.singleton event.rune = "q" then
      let s := wtfApp.Exit
      match s.out with
      | .ok _ => { wtfApp := s.wtfApp, effects := effects ++ s.effects, out := .ok (some event) }
      | .exit code => { wtfApp := s.wtfApp, effects := effects ++ s.effects, out := .exit code }
      | .panic msg => { wtfApp := s.wtfApp, effects := effects ++ s.effects, out := .panic msg }
    else if String.singleton event.rune = "/" then
      { wtfApp := wtfApp, effects := effects, out := .ok none }
    else
      { wtfApp := wtfApp, effects := effects, out := .ok (some event) }
  else
    { wtfApp := wtfApp, effects := effects, out := .ok (some event) }

/-- Lines 174-190 of `keyboardIntercept`: `FocusOn(string(event.Rune()))`; on a match
`return nil`, otherwise on to the global shortcuts. -/
def directKeyMatch (wtfApp : WtfApp) (effects : List Effect) (event : EventKey) :
    Step (Option EventKey) :=
  let r := wtfApp.focusTracker.FocusOn (String.singleton event.rune)
  if r.1 then
    { wtfApp := { wtfApp with focusTracker := r.2 }, effects := effects, out := .ok none }
  else
    globalShortcut { wtfApp with focusTracker := r.2 } effects event

/-- Lines 152-172 of `keyboardIntercept`: the switch over `event.Key()`.  `out = .ok true`
says that the case ended in `return nil`, `out = .ok false` that control leaves the switch
and goes on to line 174. -/
def globalKeys (wtfApp : WtfApp) (event : EventKey) : Step Bool :=
  match event.key with
  | .ctrlC =>
    let s := wtfApp.Stop
    match s.out with
    | .ok _ =>
      { wtfApp := s.wtfApp
        effects := s.effects ++ [.tviewStop, .displayExitMessage]
        out := .ok false }
    | .exit code => { s with out := .exit code }
    | .panic msg => { s with out := .panic msg }
  | .ctrlR =>
    { wtfApp := wtfApp, effects := wtfApp.refreshAllWidgets, out := .ok true }
  | .ctrlSpace =>
    { wtfApp := wtfApp, effects := [.println "Next app"], out := .ok true }
  | .tab =>
    { wtfApp := { wtfApp with focusTracker := wtfApp.focusTracker.Next }
      effects := []
      out := .ok false }
  | .backtab =>
    { wtfApp := { wtfApp with focusTracker := wtfApp.focusTracker.Prev }
      effects := []
      out := .ok true }
  | .esc =>
    { wtfApp := { wtfApp with focusTracker := wtfApp.focusTracker.None }
      effects := []
      out := .ok false }
  | .rune => { wtfApp := wtfApp, effects := [], out := .ok false }
  | .other => { wtfApp := wtfApp, effects := [], out := .ok false }

/-- The method `keyboardIntercept`.  `out = .ok none` is `return nil` (the event is
consumed), `out = .ok (some event)` is `return event`. -/
def keyboardIntercept (wtfApp : WtfApp) (event : EventKey) : Step (Option EventKey) :=
  let s := wtfApp.globalKeys event
  match s.out with
  | .ok true => { s with out := .ok none }
  | .ok false => directKeyMatch s.wtfApp s.effects event
  | .exit code => { s with out := .exit code }
  | .panic msg => { s with out := .panic msg }

/-- The method `scheduleWidgets`: `go Schedule(widget)` for every widget. -/
def scheduleWidgets (wtfApp : WtfApp) : List Effect :=
  (List.range wtfApp.widgets.length).map (Effect.goSchedule wtfApp.id)

/-- The method `Start`: three `go` statements; the widgets' Schedule loops are launched by
the first, the configuration watcher of this app by the second. -/
def Start (wtfApp : WtfApp) : List Effect :=
  wtfApp.scheduleWidgets ++ [.goWatchForConfigChanges wtfApp.id, .goGhUserLoad wtfApp.id]

end WtfApp

/-! ## The redraw consumer -/

/-- What the other goroutines do to the redraw channel, in the order they do it. -/
inductive ChanOp where
  | send (data : Bool)
  | close
deriving DecidableEq, Repr

/-- How a run of the `handleRedraws` loop ends: the function returned, it waits for ever
on a channel nobody sends to or closes, or the step budget of the model ran out. -/
inductive LoopEnd where
  | returned
  | blocked
  | outOfFuel
deriving DecidableEq, Repr

/-- A run of `handleRedraws`: what it did and how it ended. -/
structure Redraws where
  effects : List Effect
  ended : LoopEnd
deriving DecidableEq, Repr

/-- The `for` loop of `handleRedraws`.  `data, ok := <-redrawChan` takes the buffered value
when there is one (also after close), reports `ok = false` on a closed and empty channel,
and otherwise waits for the next thing the other goroutines do (`others`).  A channel hands
values over in the order they were sent, so the receiver sees the same whether a sender
runs ahead of it into the free slot or hands its value to the waiting receiver.  `done` are
the effects so far, `fuel` bounds the number of steps. -/
def handleRedrawsLoop : Nat → RedrawChan → List ChanOp → List Effect → Redraws
  | 0, _, _, done => { effects := done, ended := .outOfFuel }
  | fuel + 1, redrawChan, others, done =>
    match redrawChan.slot with
    | some data =>
      handleRedrawsLoop fuel { redrawChan with slot := none } others
        (if data then done ++ [.draw] else done)
    | none =>
      if redrawChan.closed then
        { effects := done, ended := .returned }
      else
        match others with
        | [] => { effects := done, ended := .blocked }
        | .send data :: rest =>
          handleRedrawsLoop fuel redrawChan rest (if data then done ++ [.draw] else done)
        | .close :: rest =>
          handleRedrawsLoop fuel { redrawChan with closed := true } rest done

/-- The function `handleRedraws`; a nil channel is `none`. -/
def handleRedraws (fuel : Nat) (redrawChan : Option RedrawChan) (others : List ChanOp) :
    Redraws :=
  match redrawChan with
  | none => { effects := [], ended := .returned }
  | some ch => handleRedrawsLoop fuel ch others []

/-! ## Construction and hot reload -/

/-- The collaborators of `NewWtfApp` and of the reload handler that live outside
`app/wtf_app.go`: `cfg.LoadWtfConfigFile`, `MakeWidgets`, and how a call of
`ModuleValidator.Validate` ends (it returns, or it ends the process). -/
structure Env where
  loadWtfConfigFile : String → Config
  makeWidgets : Config → List Wtfable
  validate : List Wtfable → Outcome Unit

/-- The result of `NewWtfApp`. -/
structure Built where
  effects : List Effect
  out : Outcome WtfApp
deriving DecidableEq, Repr

/-- The function `NewWtfApp`; `id` is the address of the struct it allocates. -/
def NewWtfApp (env : Env) (id : Nat) (config : Config) (configFilePath : String) : Built :=
  let redrawChan : RedrawChan := { slot := none, closed := false }
  let widgets := env.makeWidgets config
  let made : List Effect :=
    [.newPages, .makeRedrawChan id, .setBeforeDrawFunc, .makeWidgets id]
  if widgets.length = 0 then
    { effects := made ++
        [.println "No modules were defined. Make sure you have at least one properly defined widget",
         .osExit 1]
      out := .exit 1 }
  else
    let wired : List Effect := made ++
      [.newDisplay id, .newFocusTracker id, .newModuleValidator id, .newGitHubUser id,
       .addPage id, .validate id]
    match env.validate widgets with
    | .ok _ =>
      { effects := wired ++
          [.firstWidget id, .setBackgroundColor id, .setInputCapture id, .setRoot id,
           .goHandleRedraws id]
        out := .ok
          { id := id
            config := config
            configFilePath := configFilePath
            focusTracker := { widgets := widgets, state := .Unfocused }
            widgets := widgets
            redrawChan := redrawChan } }
    | .exit code => { effects := wired, out := .exit code }
    | .panic msg => { effects := wired, out := .panic msg }

/-- The process: every `WtfApp` allocated so far (an app's `id` is its position in `apps`),
the apps whose configuration watcher goroutine is running, everything done so far, and
whether the process still runs (`status = .ok ()`). -/
structure World where
  apps : List WtfApp
  watching : List Nat
  trace : List Effect
  status : Outcome Unit
deriving DecidableEq, Repr

/-- The `case <-watch.Event:` arm of the goroutine started by `watchForConfigChanges` of
the app at address `id`: `wtfApp.Stop()`, reload the configuration, `NewWtfApp`,
`utils.Init`, `newApp.Start()`.  An `os.Exit` or a panic ends the process.  (The arms for
`watch.Error` and `watch.Closed` are not taken on a write to the file and are left out;
nothing in the file calls `watch.Close()`.) -/
def onConfigChange (env : Env) (w : World) (id : Nat) : World :=
  match w.status with
  | .exit _ => w
  | .panic _ => w
  | .ok _ =>
    match w.apps.get? id with
    | none => w
    | some wtfApp =>
      let s := wtfApp.Stop
      let stopped : World :=
        { w with apps := w.apps.set id s.wtfApp, trace := w.trace ++ s.effects }
      match s.out with
      | .exit code => { stopped with status := .exit code }
      | .panic msg => { stopped with status := .panic msg }
      | .ok _ =>
        let config := env.loadWtfConfigFile wtfApp.configFilePath
        let b := NewWtfApp env w.apps.length config wtfApp.configFilePath
        let built : World :=
          { stopped with
            trace := stopped.trace ++ [.loadWtfConfigFile wtfApp.configFilePath] ++ b.effects }
        match b.out with
        | .exit code => { built with status := .exit code }
        | .panic msg => { built with status := .panic msg }
        | .ok newApp =>
          { built with
            apps := built.apps ++ [newApp]
            watching := built.watching ++ [newApp.id]
            trace := built.trace ++ [.utilsInit] ++ newApp.Start }

/-- Program start: the first `NewWtfApp` followed by `Start`. -/
def boot (env : Env) (config : Config) (configFilePath : String) : World :=
  let b := NewWtfApp env 0 config configFilePath
  match b.out with
  | .ok wtfApp =>
    { apps := [wtfApp], watching := [wtfApp.id], trace := b.effects ++ wtfApp.Start,
      status := .ok () }
  | .exit code => { apps := [], watching := [], trace := b.effects, status := .exit code }
  | .panic msg => { apps := [], watching := [], trace := b.effects, status := .panic msg }

/-- One write to the configuration file: every watcher running at that moment receives the
event and runs its handler; `order` is the order in which the handlers run. -/
def configChange (env : Env) (w : World) (order : List Nat) : World :=
  order.foldl (onConfigChange env) w

/-- A sequence of writes to the configuration file, the handlers of each write running in
the order the watchers were started. -/
def configChanges (env : Env) : Nat → World → World
  | 0, w => w
  | n + 1, w => configChanges env n (configChange env w w.watching)

/-- Number of `Stop()` calls app `id` has received, read off its first widget's `Stop`. -/
def stopCalls (w : World) (id : Nat) : Nat :=
  w.trace.count (.widgetStop id 0)

/-- The apps that have not been stopped: their redraw channel is open. -/
def liveApps (w : World) : List WtfApp :=
  w.apps.filter (fun a => !a.redrawChan.closed)

/-! ## The GitLab project loader (`modules/gitlab/gitlab_project.go`) -/

namespace Gitlab

/-- A `glab.MergeRequest` (external type), named by its number. -/
structure MergeRequest where
  IID : Nat
deriving DecidableEq, Repr

/-- A `glab.Issue` (external type), named by its number. -/
structure Issue where
  IID : Nat
deriving DecidableEq, Repr

/-- The two fields of `glab.Project` that are read. -/
structure Project where
  OpenIssuesCount : Int
  StarCount : Int
deriving DecidableEq, Repr

/-- The field of `glab.User` that is read. -/
structure User where
  ID : Int
deriving DecidableEq, Repr

/-- The fields of `glab.ListProjectMergeRequestsOptions` and `glab.ListProjectIssuesOptions`
that the loaders set; an unset (nil) field is `none`. -/
structure ListOptions where
  State : Option String
  AssigneeID : Option Int
  AuthorID : Option Int
deriving DecidableEq, Repr

/-- A call of the GitLab API. -/
inductive Request where
  | ListProjectMergeRequests (pid : String) (opt : ListOptions)
  | ListProjectIssues (pid : String) (opt : ListOptions)
  | GetProject (pid : String)
deriving DecidableEq, Repr

/-- What an API call hands back: the value (nil is `none`) and the error (nil is `none`). -/
structure Response (α : Type) where
  value : Option α
  err : Option String
deriving DecidableEq, Repr

/-- The `*glab.Client`: how the remote side answers each call.  `sent` are the calls made
before this one, so that the same call can succeed at one time and fail at another. -/
structure Client where
  ListProjectMergeRequests : (sent : List Request) → String → ListOptions →
    Response (List MergeRequest)
  ListProjectIssues : (sent : List Request) → String → ListOptions → Response (List Issue)
  GetProject : (sent : List Request) → String → Response Project

/-- The struct `context`.  `newContext`, its only constructor, hands out a context only
after `Users.CurrentUser()` has succeeded on the client it stores, so both fields are
present in every context. -/
structure context where
  client : Client
  user : User

/-- The struct `GitlabProject`; a nil slice or pointer is `none`. -/
structure GitlabProject where
  context : Option context
  path : String
  MergeRequests : Option (List MergeRequest)
  AssignedMergeRequests : Option (List MergeRequest)
  AuthoredMergeRequests : Option (List MergeRequest)
  AssignedIssues : Option (List Issue)
  AuthoredIssues : Option (List Issue)
  RemoteProject : Option Project

/-- The function `NewGitlabProject`. -/
def NewGitlabProject (context : Option context) (projectPath : String) : GitlabProject :=
  { context := context
    path := projectPath
    MergeRequests := none
    AssignedMergeRequests := none
    AuthoredMergeRequests := none
    AssignedIssues := none
    AuthoredIssues := none
    RemoteProject := none }

/-- The result of a loader: the two values it returns and the calls made so far. -/
structure Loaded (α : Type) where
  value : Option α
  err : Option String
  sent : List Request

/-- The tail shared by the loaders: `if err != nil { return nil, err }; return v, nil`. -/
def returned {α : Type} (r : Response α) (sent : List Request) : Loaded α :=
  match r.err with
  | some e => { value := none, err := some e, sent := sent }
  | none => { value := r.value, err := none, sent := sent }

/-- Sequencing of calls: what follows runs only when the call before it returned. -/
def andThen {α β : Type} (o : Outcome α) (f : α → Outcome β) : Outcome β :=
  match o with
  | .ok a => f a
  | .exit code => .exit code
  | .panic msg => .panic msg

namespace GitlabProject

/-- The method `loadMergeRequests`. -/
def loadMergeRequests (project : GitlabProject) (sent : List Request) :
    Outcome (Loaded (List MergeRequest)) :=
  match project.context with
  | none => .panic "invalid memory address or nil pointer dereference"
  | some ctx =>
    let opts : ListOptions := { State := some "opened", AssigneeID := none, AuthorID := none }
    .ok (returned (ctx.client.ListProjectMergeRequests sent project.path opts)
      (sent ++ [.ListProjectMergeRequests project.path opts]))

/-- The method `loadAssignedMergeRequests`. -/
def loadAssignedMergeRequests (project : GitlabProject) (sent : List Request) :
    Outcome (Loaded (List MergeRequest)) :=
  match project.context with
  | none => .panic "invalid memory address or nil pointer dereference"
  | some ctx =>
    let opts : ListOptions :=
      { State := some "opened", AssigneeID := some ctx.user.ID, AuthorID := none }
    .ok (returned (ctx.client.ListProjectMergeRequests sent project.path opts)
      (sent ++ [.ListProjectMergeRequests project.path opts]))

/-- The method `loadAuthoredMergeRequests`. -/
def loadAuthoredMergeRequests (project : GitlabProject) (sent : List Request) :
    Outcome (Loaded (List MergeRequest)) :=
  match project.context with
  | none => .panic "invalid memory address or nil pointer dereference"
  | some ctx =>
    let opts : ListOptions :=
      { State := some "opened", AssigneeID := none, AuthorID := some ctx.user.ID }
    .ok (returned (ctx.client.ListProjectMergeRequests sent project.path opts)
      (sent ++ [.ListProjectMergeRequests project.path opts]))

/-- The method `loadAssignedIssues`. -/
def loadAssignedIssues (project : GitlabProject) (sent : List Request) :
    Outcome (Loaded (List Issue)) :=
  match project.context with
  | none => .panic "invalid memory address or nil pointer dereference"
  | some ctx =>
    let opts : ListOptions :=
      { State := some "opened", AssigneeID := some ctx.user.ID, AuthorID := none }
    .ok (returned (ctx.client.ListProjectIssues sent project.path opts)
      (sent ++ [.ListProjectIssues project.path opts]))

/-- The method `loadAuthoredIssues`. -/
def loadAuthoredIssues (project : GitlabProject) (sent : List Request) :
    Outcome (Loaded (List Issue)) :=
  match project.context with
  | none => .panic "invalid memory address or nil pointer dereference"
  | some ctx =>
    let opts : ListOptions :=
      { State := some "opened", AssigneeID := none, AuthorID := some ctx.user.ID }
    .ok (returned (ctx.client.ListProjectIssues sent project.path opts)
      (sent ++ [.ListProjectIssues project.path opts]))

/-- The method `loadRemoteProject`. -/
def loadRemoteProject (project : GitlabProject) (sent : List Request) :
    Outcome (Loaded Project) :=
  match project.context with
  | none => .panic "invalid memory address or nil pointer dereference"
  | some ctx =>
    .ok (returned (ctx.client.GetProject sent project.path)
      (sent ++ [.GetProject project.path]))

/-- The method `Refresh`: six assignments `project.X, _ = project.loadX()`; the result is
the project afterwards and the calls made so far. -/
def Refresh (project : GitlabProject) (sent : List Request) :
    Outcome (GitlabProject × List Request) :=
  andThen (project.loadMergeRequests sent) fun r1 =>
  let project := { project with MergeRequests := r1.value }
  andThen (project.loadAssignedMergeRequests r1.sent) fun r2 =>
  let project := { project with AssignedMergeRequests := r2.value }
  andThen (project.loadAuthoredMergeRequests r2.sent) fun r3 =>
  let project := { project with AuthoredMergeRequests := r3.value }
  andThen (project.loadAssignedIssues r3.sent) fun r4 =>
  let project := { project with AssignedIssues := r4.value }
  andThen (project.loadAuthoredIssues r4.sent) fun r5 =>
  let project := { project with AuthoredIssues := r5.value }
  andThen (project.loadRemoteProject r5.sent) fun r6 =>
  .ok ({ project with RemoteProject := r6.value }, r6.sent)

/-- The method `IssueCount`. -/
def IssueCount (project : GitlabProject) : Int :=
  match project.RemoteProject with
  | none => 0
  | some p => p.OpenIssuesCount

/-- The method `MergeRequestCount`: `len` of a nil slice is 0. -/
def MergeRequestCount (project : GitlabProject) : Int :=
  match project.MergeRequests with
  | none => 0
  | some mrs => mrs.length

/-- The method `StarCount`. -/
def StarCount (project : GitlabProject) : Int :=
  match project.RemoteProject with
  | none => 0
  | some p => p.StarCount

end GitlabProject

end Gitlab

/-! ## Sample inputs -/

/-- A sample widget with focus key `a`. -/
def wA : Wtfable := { name := "A", focusKey := some 'a', enabled := true, focusable := false }
/-- A sample widget with focus key `b`. -/
def wB : Wtfable := { name := "B", focusKey := some 'b', enabled := true, focusable := false }
/-- A live app with the two sample widgets, nothing focused, an empty redraw channel. -/
def sampleApp : WtfApp :=
  { id := 0
    config := { snapshot := 0 }
    configFilePath := "config.yml"
    focusTracker := { widgets := [wA, wB], state := .Unfocused }
    widgets := [wA, wB]
    redrawChan := { slot := none, closed := false } }

/-- The sample app with a redraw signal waiting in the channel. -/
def pendingApp : WtfApp :=
  { sampleApp with redrawChan := { slot := some true, closed := false } }

/-- The sample app with a redraw signal carrying `false` waiting in the channel. -/
def pendingFalseApp : WtfApp :=
  { sampleApp with redrawChan := { slot := some false, closed := false } }

/-- The sample app with widget B focused. -/
def focusedApp : WtfApp :=
  { sampleApp with focusTracker := { widgets := [wA, wB], state := .FocusedOn 1 } }

/-- The sample app after `Stop()`: its redraw channel is closed. -/
def stoppedApp : WtfApp :=
  { sampleApp with redrawChan := { slot := none, closed := true } }

/-- An environment whose configuration file always yields the two sample widgets. -/
def sampleEnv : Env :=
  { loadWtfConfigFile := fun _ => { snapshot := 0 }
    makeWidgets := fun _ => [wA, wB]
    validate := fun _ => .ok () }

/-- An environment whose configuration file yields no widget. -/
def emptyEnv : Env :=
  { loadWtfConfigFile := fun _ => { snapshot := 1 }
    makeWidgets := fun _ => []
    validate := fun _ => .ok () }

/-- The process after start-up in `sampleEnv`: one app, started. -/
def sampleWorld : World :=
  boot sampleEnv { snapshot := 0 } "config.yml"

namespace Gitlab

/-- A remote side whose first call fails (while still handing back a value), whose later
merge-request calls succeed, and whose issue and project calls fail. -/
def flakyClient : Client :=
  { ListProjectMergeRequests := fun sent _ _ =>
      if sent.length = 0 then { value := some [{ IID := 7 }], err := some "502 Bad Gateway" }
      else { value := some [{ IID := 7 }, { IID := 8 }], err := none }
    ListProjectIssues := fun _ _ _ => { value := none, err := some "timeout" }
    GetProject := fun _ _ => { value := none, err := some "404 Not Found" } }

/-- A project holding values from an earlier refresh. -/
def sampleProject : GitlabProject :=
  { context := some { client := flakyClient, user := { ID := 42 } }
    path := "group/repo"
    MergeRequests := some [{ IID := 1 }]
    AssignedMergeRequests := none
    AuthoredMergeRequests := none
    AssignedIssues := some [{ IID := 3 }]
    AuthoredIssues := none
    RemoteProject := some { OpenIssuesCount := 5, StarCount := 9 } }

end Gitlab

/-! # Theorems -/

/-! ## Keyboard routing -/

namespace FocusTracker

theorem singleton_eq_iff (a b : Char) : String.singleton a = String.singleton b ↔ a = b := by
  constructor
  · intro h
    have h2 := congrArg String.data h
    simpa [String.singleton] using h2
  · intro h
    rw [h]

theorem answersTo_rune_iff (r : Char) (w : Wtfable) :
    answersTo (String.singleton r) w = true ↔ (w.enabled = true ∧ w.focusKey = some r) := by
  unfold answersTo
  cases hk : w.focusKey with
  | none => simp
  | some k => simp [singleton_eq_iff]

theorem FocusOn_match_iff (tracker : FocusTracker) (char : String) :
    (tracker.FocusOn char).1 = true ↔ ∃ w ∈ tracker.widgets, answersTo char w = true := by
  unfold FocusOn
  cases h : tracker.widgets.findIdx? (answersTo char) with
  | none =>
    simp only [Bool.false_eq_true, false_iff, not_exists, not_and]
    intro w hw
    have := List.findIdx?_eq_none_iff.mp h w hw
    simpa using this
  | some i =>
    simp only [true_iff]
    have h2 : (tracker.widgets.findIdx? (answersTo char)).isSome = true := by simp [h]
    rw [List.findIdx?_isSome] at h2
    simpa using h2

theorem FocusOn_no_match (tracker : FocusTracker) (char : String)
    (h : (tracker.FocusOn char).1 = false) : (tracker.FocusOn char).2 = tracker := by
  unfold FocusOn at h ⊢
  cases h2 : tracker.widgets.findIdx? (answersTo char) with
  | none => rfl
  | some i => simp [h2] at h


theorem FocusOn_rune_match_iff (tracker : FocusTracker) (r : Char) :
    (tracker.FocusOn (String.singleton r)).1 = true ↔
      ∃ w ∈ tracker.widgets, w.enabled = true ∧ w.focusKey = some r := by
  rw [FocusOn_match_iff]
  constructor
  · rintro ⟨w, hw, h⟩
    exact ⟨w, hw, (answersTo_rune_iff r w).mp h⟩
  · rintro ⟨w, hw, h⟩
    exact ⟨w, hw, (answersTo_rune_iff r w).mpr h⟩

theorem FocusOn_rune_no_match (tracker : FocusTracker) (r : Char)
    (hno : ∀ w ∈ tracker.widgets, w.enabled = true → w.focusKey ≠ some r) :
    tracker.FocusOn (String.singleton r) = (false, tracker) := by
  have h1 : (tracker.FocusOn (String.singleton r)).1 = false := by
    cases h : (tracker.FocusOn (String.singleton r)).1 with
    | false => rfl
    | true =>
      obtain ⟨w, hw, he, hk⟩ := (FocusOn_rune_match_iff tracker r).mp h
      exact absurd hk (hno w hw he)
  have h2 := FocusOn_no_match tracker _ h1
  exact Prod.ext h1 h2

theorem FocusOn_focused (tracker : FocusTracker) (char : String)
    (h : (tracker.FocusOn char).1 = true) : (tracker.FocusOn char).2.IsFocused = true := by
  unfold FocusOn at h ⊢
  cases h2 : tracker.widgets.findIdx? (answersTo char) with
  | none => simp [h2] at h
  | some i => rfl

theorem Next_widgets (tracker : FocusTracker) : tracker.Next.widgets = tracker.widgets := by
  unfold Next
  split
  · rfl
  · split
    · rfl
    · split <;> rfl

end FocusTracker

namespace WtfApp

theorem directKeyMatch_no_match (wtfApp : WtfApp) (effects : List Effect) (event : EventKey)
    (hno : ∀ w ∈ wtfApp.focusTracker.widgets, w.enabled = true → w.focusKey ≠ some event.rune) :
    directKeyMatch wtfApp effects event = globalShortcut wtfApp effects event := by
  unfold directKeyMatch
  rw [FocusTracker.FocusOn_rune_no_match _ _ hno]
  simp

theorem directKeyMatch_match (wtfApp : WtfApp) (effects : List Effect) (event : EventKey)
    (h : ∃ w ∈ wtfApp.focusTracker.widgets, w.enabled = true ∧ w.focusKey = some event.rune) :
    directKeyMatch wtfApp effects event =
      { wtfApp := { wtfApp with
          focusTracker := (wtfApp.focusTracker.FocusOn (String.singleton event.rune)).2 }
        effects := effects
        out := .ok none } := by
  unfold directKeyMatch
  have h1 := (FocusTracker.FocusOn_rune_match_iff _ _).mpr h
  simp [h1]

theorem Exit_never_returns (wtfApp : WtfApp) (u : Unit) : wtfApp.Exit.out ≠ .ok u := by
  unfold Exit Stop
  split <;> simp

theorem Exit_live (wtfApp : WtfApp) (h : wtfApp.redrawChan.closed = false) :
    wtfApp.Exit =
      { wtfApp := { wtfApp with redrawChan := { wtfApp.redrawChan with closed := true } }
        effects := wtfApp.stopAllWidgets ++
          [.closeRedrawChan wtfApp.id, .tviewStop, .displayExitMessage, .osExit 0]
        out := .exit 0 } := by
  unfold Exit Stop
  simp [h]

theorem globalKeys_falls_through (wtfApp : WtfApp) (event : EventKey)
    (h1 : event.key ≠ .ctrlR) (h2 : event.key ≠ .ctrlSpace) (h3 : event.key ≠ .backtab)
    (hlive : event.key = .ctrlC → wtfApp.redrawChan.closed = false) :
    (wtfApp.globalKeys event).out = .ok false ∧
    (wtfApp.globalKeys event).wtfApp.focusTracker.widgets = wtfApp.focusTracker.widgets ∧
    (∀ code, Effect.osExit code ∉ (wtfApp.globalKeys event).effects) := by
  unfold globalKeys
  cases hk : event.key with
  | ctrlC =>
    have hl := hlive hk
    simp [Stop, hl, stopAllWidgets]
  | ctrlR => exact absurd hk h1
  | ctrlSpace => exact absurd hk h2
  | tab => simp [FocusTracker.Next_widgets]
  | backtab => exact absurd hk h3
  | esc => simp [FocusTracker.None]
  | rune => simp
  | other => simp

/-- C2 (as amended): for an event that the switch does not answer with `return nil` (its key
is none of Ctrl-R, Ctrl-Space, Shift-Tab) and, when the key is Ctrl-C, on an app whose redraw
channel `Stop()` has not closed yet, control reaches the direct key match.  `FocusOn`
reports a match exactly when an enabled widget has the event's character as focus key; then
`keyboardIntercept` returns nil, nothing is done beyond what the switch did and `os.Exit` is
not reached (`Exit` is not called), whatever the character.  Without a match `FocusOn`
leaves the tracker as it was and the result is that of the global-shortcut check. -/
theorem C2_direct_key_match (wtfApp : WtfApp) (event : EventKey)
    (h1 : event.key ≠ .ctrlR) (h2 : event.key ≠ .ctrlSpace) (h3 : event.key ≠ .backtab)
    (hlive : event.key = .ctrlC → wtfApp.redrawChan.closed = false) :
    (wtfApp.globalKeys event).out = .ok false ∧
    (((wtfApp.globalKeys event).wtfApp.focusTracker.FocusOn (String.singleton event.rune)).1
        = true ↔
      ∃ w ∈ wtfApp.focusTracker.widgets, w.enabled = true ∧ w.focusKey = some event.rune) ∧
    (((wtfApp.globalKeys event).wtfApp.focusTracker.FocusOn (String.singleton event.rune)).1
        = true →
      (wtfApp.keyboardIntercept event).out = .ok none ∧
      (wtfApp.keyboardIntercept event).effects = (wtfApp.globalKeys event).effects ∧
      (∀ code, Effect.osExit code ∉ (wtfApp.keyboardIntercept event).effects) ∧
      (wtfApp.keyboardIntercept event).wtfApp.focusTracker.IsFocused = true) ∧
    (((wtfApp.globalKeys event).wtfApp.focusTracker.FocusOn (String.singleton event.rune)).1
        = false →
      ((wtfApp.globalKeys event).wtfApp.focusTracker.FocusOn (String.singleton event.rune)).2
        = (wtfApp.globalKeys event).wtfApp.focusTracker ∧
      wtfApp.keyboardIntercept event =
        globalShortcut (wtfApp.globalKeys event).wtfApp (wtfApp.globalKeys event).effects
          event) := by
  obtain ⟨hout, hwid, hexit⟩ := globalKeys_falls_through wtfApp event h1 h2 h3 hlive
  refine ⟨hout, ?_, ?_, ?_⟩
  · rw [FocusTracker.FocusOn_rune_match_iff, hwid]
  · intro hm
    have hm2 := (FocusTracker.FocusOn_rune_match_iff _ _).mp hm
    have hk : wtfApp.keyboardIntercept event =
        directKeyMatch (wtfApp.globalKeys event).wtfApp (wtfApp.globalKeys event).effects
          event := by
      unfold keyboardIntercept
      simp only [hout]
    rw [hk, directKeyMatch_match _ _ _ hm2]
    exact ⟨rfl, rfl, hexit, FocusTracker.FocusOn_focused _ _ hm⟩
  · intro hm
    have hsame := FocusTracker.FocusOn_no_match _ _ hm
    refine ⟨hsame, ?_⟩
    unfold keyboardIntercept
    simp only [hout]
    unfold directKeyMatch
    simp only [hm, hsame]
    simp

/-- C2 (as amended) at concrete inputs: the key `a` is consumed on the sample app, also when
it comes with Ctrl-C on the live app (after the app was stopped, without `os.Exit`), and the
key `x`, which no widget answers to, goes on to the global-shortcut check. -/
theorem C2_direct_key_match_witness :
    (sampleApp.keyboardIntercept { key := .rune, rune := 'a' }).out = .ok none ∧
    (sampleApp.keyboardIntercept { key := .rune, rune := 'a' }).wtfApp.focusTracker.IsFocused
      = true ∧
    (sampleApp.keyboardIntercept { key := .ctrlC, rune := 'a' }).out = .ok none ∧
    (sampleApp.keyboardIntercept { key := .ctrlC, rune := 'a' }).effects =
      (sampleApp.globalKeys { key := .ctrlC, rune := 'a' }).effects ∧
    sampleApp.keyboardIntercept { key := .rune, rune := 'x' } =
      WtfApp.globalShortcut
        (sampleApp.globalKeys { key := .rune, rune := 'x' }).wtfApp
        (sampleApp.globalKeys { key := .rune, rune := 'x' }).effects
        { key := .rune, rune := 'x' } :=
  ⟨((C2_direct_key_match sampleApp { key := .rune, rune := 'a' } (by decide) (by decide)
      (by decide) (by decide)).2.2.1 (by decide)).1,
   ((C2_direct_key_match sampleApp { key := .rune, rune := 'a' } (by decide) (by decide)
      (by decide) (by decide)).2.2.1 (by decide)).2.2.2,
   ((C2_direct_key_match sampleApp { key := .ctrlC, rune := 'a' } (by decide) (by decide)
      (by decide) (by decide)).2.2.1 (by decide)).1,
   ((C2_direct_key_match sampleApp { key := .ctrlC, rune := 'a' } (by decide) (by decide)
      (by decide) (by decide)).2.2.1 (by decide)).2.1,
   ((C2_direct_key_match sampleApp { key := .rune, rune := 'x' } (by decide) (by decide)
      (by decide) (by decide)).2.2.2 (by decide)).2⟩

/-- C2 (as stated) fails: Ctrl-C carrying the rune `a` on an app that `Stop()` has already
closed.  The key is none of Ctrl-R, Ctrl-Space, Shift-Tab and widget A answers to `a`
(`FocusOn` would report a match), but the Ctrl-C case calls `Stop()` first and its close of
the closed channel panics: nil is not returned and the focus is not moved. -/
theorem C2_counterexample :
    stoppedApp.redrawChan.closed = true ∧
    (stoppedApp.focusTracker.FocusOn (String.singleton 'a')).1 = true ∧
    (stoppedApp.keyboardIntercept { key := .ctrlC, rune := 'a' }).out
      = .panic "close of closed channel" ∧
    (stoppedApp.keyboardIntercept { key := .ctrlC, rune := 'a' }).out ≠ .ok none ∧
    (stoppedApp.keyboardIntercept { key := .ctrlC, rune := 'a' }).wtfApp.focusTracker.IsFocused
      = false := by
  decide

theorem globalShortcut_focused (wtfApp : WtfApp) (effects : List Effect) (event : EventKey)
    (h : wtfApp.focusTracker.IsFocused = true) :
    globalShortcut wtfApp effects event =
      { wtfApp := wtfApp, effects := effects, out := .ok (some event) } := by
  unfold globalShortcut
  simp [h]

theorem globalShortcut_plain (wtfApp : WtfApp) (effects : List Effect) (event : EventKey)
    (hq : event.rune ≠ 'q') (hs : event.rune ≠ '/') :
    globalShortcut wtfApp effects event =
      { wtfApp := wtfApp, effects := effects, out := .ok (some event) } := by
  have e1 : String.singleton event.rune ≠ "q" := fun h =>
    hq ((FocusTracker.singleton_eq_iff event.rune 'q').mp h)
  have e2 : String.singleton event.rune ≠ "/" := fun h =>
    hs ((FocusTracker.singleton_eq_iff event.rune '/').mp h)
  unfold globalShortcut
  simp [e1, e2]

theorem globalShortcut_slash (wtfApp : WtfApp) (effects : List Effect) (event : EventKey)
    (h : wtfApp.focusTracker.IsFocused = false) (hs : event.rune = '/') :
    globalShortcut wtfApp effects event =
      { wtfApp := wtfApp, effects := effects, out := .ok none } := by
  have e1 : String.singleton event.rune = "/" := by rw [hs]; rfl
  have e2 : String.singleton event.rune ≠ "q" := by rw [hs]; decide
  unfold globalShortcut
  simp [h, e1, e2]

theorem globalShortcut_quit (wtfApp : WtfApp) (event : EventKey)
    (h : wtfApp.focusTracker.IsFocused = false) (hq : event.rune = 'q') :
    (globalShortcut wtfApp [] event).wtfApp = wtfApp.Exit.wtfApp ∧
    (globalShortcut wtfApp [] event).effects = wtfApp.Exit.effects ∧
    (∀ e, (globalShortcut wtfApp [] event).out ≠ .ok e) := by
  have e1 : String.singleton event.rune = "q" := by rw [hq]; rfl
  have hne := Exit_never_returns wtfApp
  unfold globalShortcut
  simp only [h, e1]
  cases ho : wtfApp.Exit.out with
  | ok u => exact absurd ho (hne u)
  | exit code => simp
  | panic msg => simp

/-- C3: a printable key event whose character is the focus key of no enabled widget.
While a widget has focus the event is returned unchanged, nothing is done and the app is
left as it was (no quit on "q", "/" not swallowed).  While no widget has focus, "q" runs
`Exit` (which never returns: the process exits with status 0 when the app is live), "/" is
answered with nil, and any other character is returned unchanged. -/
theorem C3_printable_no_match (wtfApp : WtfApp) (event : EventKey) (hkey : event.key = .rune)
    (hno : ∀ w ∈ wtfApp.focusTracker.widgets, w.enabled = true → w.focusKey ≠ some event.rune) :
    (wtfApp.focusTracker.IsFocused = true →
      wtfApp.keyboardIntercept event =
        { wtfApp := wtfApp, effects := [], out := .ok (some event) }) ∧
    (wtfApp.focusTracker.IsFocused = false →
      (event.rune = 'q' →
        (wtfApp.keyboardIntercept event).wtfApp = wtfApp.Exit.wtfApp ∧
        (wtfApp.keyboardIntercept event).effects = wtfApp.Exit.effects ∧
        (∀ e, (wtfApp.keyboardIntercept event).out ≠ .ok e) ∧
        (wtfApp.redrawChan.closed = false →
          (wtfApp.keyboardIntercept event).out = .exit 0 ∧
          Effect.osExit 0 ∈ (wtfApp.keyboardIntercept event).effects)) ∧
      (event.rune = '/' →
        wtfApp.keyboardIntercept event =
          { wtfApp := wtfApp, effects := [], out := .ok none }) ∧
      (event.rune ≠ 'q' → event.rune ≠ '/' →
        wtfApp.keyboardIntercept event =
          { wtfApp := wtfApp, effects := [], out := .ok (some event) })) := by
  have hk : wtfApp.keyboardIntercept event = globalShortcut wtfApp [] event := by
    unfold keyboardIntercept globalKeys
    simp only [hkey]
    exact directKeyMatch_no_match wtfApp [] event hno
  rw [hk]
  refine ⟨fun hf => globalShortcut_focused wtfApp [] event hf, fun hu => ⟨?_, ?_, ?_⟩⟩
  · intro hq
    obtain ⟨ha, he, ho⟩ := globalShortcut_quit wtfApp event hu hq
    refine ⟨ha, he, ho, fun hlive => ?_⟩
    have e1 : String.singleton event.rune = "q" := by rw [hq]; rfl
    unfold globalShortcut
    simp [hu, e1, Exit_live wtfApp hlive]
  · intro hs
    exact globalShortcut_slash wtfApp [] event hu hs
  · intro hq hs
    exact globalShortcut_plain wtfApp [] event hq hs

/-- C3 at concrete inputs: with nothing focused, `q` ends the process and `x` is returned. -/
theorem C3_printable_no_match_witness :
    (sampleApp.keyboardIntercept { key := .rune, rune := 'q' }).out = .exit 0 ∧
    sampleApp.keyboardIntercept { key := .rune, rune := 'x' } =
      { wtfApp := sampleApp, effects := [], out := .ok (some { key := .rune, rune := 'x' }) } :=
  ⟨((((C3_printable_no_match sampleApp { key := .rune, rune := 'q' } rfl (by decide)).2
      (by decide)).1 rfl).2.2.2 (by decide)).1,
   ((C3_printable_no_match sampleApp { key := .rune, rune := 'x' } rfl (by decide)).2
      (by decide)).2.2 (by decide) (by decide)⟩

/-- C9 fails on the code: with nothing focused, a Tab event (rune `\t`) is handed back to the
caller after `Next`, a `FocusOn` attempt and the global-shortcut check, while a Shift-Tab
event in the same state is consumed right after `Prev`; the same holds with widget B
focused.  A Tab event whose rune is `b` leaves the tracker on widget B, where `FocusOn` put
it, and not on widget A, where `Next` had put it. -/
theorem C9_tab_returned_backtab_consumed :
    sampleApp.keyboardIntercept { key := .tab, rune := '\t' } =
      { wtfApp := { sampleApp with focusTracker := sampleApp.focusTracker.Next }
        effects := []
        out := .ok (some { key := .tab, rune := '\t' }) } ∧
    sampleApp.keyboardIntercept { key := .backtab, rune := '\t' } =
      { wtfApp := { sampleApp with focusTracker := sampleApp.focusTracker.Prev }
        effects := []
        out := .ok none } ∧
    (focusedApp.keyboardIntercept { key := .tab, rune := '\t' }).out
      = .ok (some { key := .tab, rune := '\t' }) ∧
    (focusedApp.keyboardIntercept { key := .backtab, rune := '\t' }).out = .ok none ∧
    sampleApp.focusTracker.Next.state = .FocusedOn 0 ∧
    (sampleApp.keyboardIntercept { key := .tab, rune := 'b' }).wtfApp.focusTracker.state
      = .FocusedOn 1 ∧
    (sampleApp.keyboardIntercept { key := .tab, rune := 'b' }).out = .ok none := by
  decide

end WtfApp

/-! ## The redraw consumer -/

theorem handleRedrawsLoop_sends (signals : List Bool) :
    ∀ (fuel : Nat) (done : List Effect), signals.length + 2 ≤ fuel →
      handleRedrawsLoop fuel { slot := none, closed := false }
          (signals.map ChanOp.send ++ [ChanOp.close]) done =
        { effects := done ++ List.replicate (signals.count true) Effect.draw
          ended := .returned } := by
  induction signals with
  | nil =>
    intro fuel done hfuel
    obtain ⟨f, rfl⟩ : ∃ f, fuel = f + 2 := ⟨fuel - 2, by omega⟩
    simp [handleRedrawsLoop]
  | cons v rest ih =>
    intro fuel done hfuel
    obtain ⟨f, rfl⟩ : ∃ f, fuel = f + 1 := ⟨fuel - 1, by omega⟩
    have hf : rest.length + 2 ≤ f := by simp at hfuel; omega
    cases v with
    | true =>
      simp [handleRedrawsLoop, ih f _ hf, List.replicate_succ]
    | false =>
      simp [handleRedrawsLoop, ih f _ hf]

/-- C4 (as amended): on a fresh redraw channel that delivers the signals `signals` and is
then closed, `handleRedraws` repaints once for every signal that carries `true` and not at
all for a signal that carries `false`, and returns once the channel is closed; with a nil
channel it returns at once without repainting. -/
theorem C4_one_draw_per_true_signal (signals : List Bool) (fuel : Nat)
    (hfuel : signals.length + 2 ≤ fuel) :
    handleRedraws fuel (some { slot := none, closed := false })
        (signals.map ChanOp.send ++ [ChanOp.close]) =
      { effects := List.replicate (signals.count true) Effect.draw, ended := .returned } ∧
    (∀ others, handleRedraws fuel none others = { effects := [], ended := .returned }) := by
  constructor
  · unfold handleRedraws
    simpa using handleRedrawsLoop_sends signals fuel [] hfuel
  · intro others
    rfl

/-- C4 (as amended) at a concrete input: the signals true, false, true. -/
theorem C4_one_draw_per_true_signal_witness :
    handleRedraws 5 (some { slot := none, closed := false })
        ([true, false, true].map ChanOp.send ++ [ChanOp.close]) =
      { effects := List.replicate ([true, false, true].count true) Effect.draw
        ended := .returned } :=
  (C4_one_draw_per_true_signal [true, false, true] 5 (by decide)).1

/-- C4 (as stated) fails: one signal carrying `false` is received and the channel is then
closed; `handleRedraws` returns without a single repaint. -/
theorem C4_counterexample :
    handleRedraws 3 (some { slot := none, closed := false })
        ([false].map ChanOp.send ++ [ChanOp.close]) =
      { effects := [], ended := .returned } ∧
    ([false] : List Bool).length = 1 := by
  decide

/-- C5 (as amended): once `Stop` has closed the redraw channel of a live app, `handleRedraws`
returns, whatever the buffer held and whatever the other goroutines still try: it does not
repaint when the buffer was empty or held `false`, and it repaints exactly once when the
buffer held a pending `true`, which is still received after the close. -/
theorem C5_after_close (wtfApp : WtfApp) (hlive : wtfApp.redrawChan.closed = false)
    (fuel : Nat) (hfuel : 2 ≤ fuel) (others : List ChanOp) :
    wtfApp.Stop.out = .ok () ∧
    wtfApp.Stop.wtfApp.redrawChan = { slot := wtfApp.redrawChan.slot, closed := true } ∧
    handleRedraws fuel (some wtfApp.Stop.wtfApp.redrawChan) others =
      { effects := if wtfApp.redrawChan.slot = some true then [Effect.draw] else []
        ended := .returned } := by
  obtain ⟨f, rfl⟩ : ∃ f, fuel = f + 2 := ⟨fuel - 2, by omega⟩
  have hs : wtfApp.Stop.wtfApp.redrawChan = { slot := wtfApp.redrawChan.slot, closed := true } := by
    simp [WtfApp.Stop, hlive]
  refine ⟨by simp [WtfApp.Stop, hlive], hs, ?_⟩
  rw [hs]
  unfold handleRedraws
  cases hslot : wtfApp.redrawChan.slot with
  | none => simp [handleRedrawsLoop]
  | some v => cases v <;> simp [handleRedrawsLoop]

/-- C5 (as amended) at concrete inputs: a pending `true` is drawn once after the close, also
when other goroutines still try to send; a pending `false` and an empty buffer give no
repaint; the loop returns each time. -/
theorem C5_after_close_witness :
    pendingApp.redrawChan.slot = some true ∧
    handleRedraws 3 (some pendingApp.Stop.wtfApp.redrawChan) [.send true, .close] =
      { effects := [Effect.draw], ended := .returned } ∧
    handleRedraws 2 (some pendingFalseApp.Stop.wtfApp.redrawChan) [.send true] =
      { effects := [], ended := .returned } ∧
    handleRedraws 2 (some sampleApp.Stop.wtfApp.redrawChan) [] =
      { effects := [], ended := .returned } :=
  ⟨by decide,
   (C5_after_close pendingApp (by decide) 3 (by decide) [.send true, .close]).2.2,
   (C5_after_close pendingFalseApp (by decide) 2 (by decide) [.send true]).2.2,
   (C5_after_close sampleApp (by decide) 2 (by decide) []).2.2⟩

/-- C5 (as stated) fails: the buffer holds a pending `true` when `Stop` closes the channel;
the loop receives it after the close and repaints once before it returns. -/
theorem C5_counterexample :
    pendingApp.Stop.wtfApp.redrawChan = { slot := some true, closed := true } ∧
    handleRedraws 2 (some pendingApp.Stop.wtfApp.redrawChan) [] =
      { effects := [Effect.draw], ended := .returned } := by
  decide

/-! ## Construction and hot reload -/

theorem NewWtfApp_no_widgets (env : Env) (id : Nat) (config : Config) (configFilePath : String)
    (h : env.makeWidgets config = []) :
    NewWtfApp env id config configFilePath =
      { effects :=
          [.newPages, .makeRedrawChan id, .setBeforeDrawFunc, .makeWidgets id,
           .println "No modules were defined. Make sure you have at least one properly defined widget",
           .osExit 1]
        out := .exit 1 } := by
  unfold NewWtfApp
  simp [h]

theorem NewWtfApp_no_goSchedule (env : Env) (id : Nat) (config : Config)
    (configFilePath : String) (app widget : Nat) :
    Effect.goSchedule app widget ∉ (NewWtfApp env id config configFilePath).effects := by
  unfold NewWtfApp
  simp only
  split
  · simp
  · split <;> simp

theorem NewWtfApp_ok (env : Env) (id : Nat) (config : Config) (configFilePath : String)
    (newApp : WtfApp) (h : (NewWtfApp env id config configFilePath).out = .ok newApp) :
    newApp =
      { id := id
        config := config
        configFilePath := configFilePath
        focusTracker := { widgets := env.makeWidgets config, state := .Unfocused }
        widgets := env.makeWidgets config
        redrawChan := { slot := none, closed := false } } ∧
    env.makeWidgets config ≠ [] := by
  unfold NewWtfApp at h
  simp only at h
  split at h
  · simp at h
  · rename_i hne
    split at h
    · simp only [Outcome.ok.injEq] at h
      refine ⟨h.symm, ?_⟩
      intro hnil
      simp [hnil] at hne
    · simp at h
    · simp at h

theorem onConfigChange_live (env : Env) (w : World) (id : Nat) (wtfApp : WtfApp)
    (hrun : w.status = .ok ()) (hget : w.apps.get? id = some wtfApp)
    (hlive : wtfApp.redrawChan.closed = false) :
    onConfigChange env w id =
      match (NewWtfApp env w.apps.length (env.loadWtfConfigFile wtfApp.configFilePath)
          wtfApp.configFilePath).out with
      | .ok newApp =>
        { apps := w.apps.set id
              { wtfApp with redrawChan := { wtfApp.redrawChan with closed := true } } ++ [newApp]
          watching := w.watching ++ [newApp.id]
          trace := w.trace ++ (wtfApp.stopAllWidgets ++ [.closeRedrawChan wtfApp.id]) ++
            [.loadWtfConfigFile wtfApp.configFilePath] ++
            (NewWtfApp env w.apps.length (env.loadWtfConfigFile wtfApp.configFilePath)
              wtfApp.configFilePath).effects ++ [.utilsInit] ++ newApp.Start
          status := .ok () }
      | .exit code =>
        { apps := w.apps.set id
              { wtfApp with redrawChan := { wtfApp.redrawChan with closed := true } }
          watching := w.watching
          trace := w.trace ++ (wtfApp.stopAllWidgets ++ [.closeRedrawChan wtfApp.id]) ++
            [.loadWtfConfigFile wtfApp.configFilePath] ++
            (NewWtfApp env w.apps.length (env.loadWtfConfigFile wtfApp.configFilePath)
              wtfApp.configFilePath).effects
          status := .exit code }
      | .panic msg =>
        { apps := w.apps.set id
              { wtfApp with redrawChan := { wtfApp.redrawChan with closed := true } }
          watching := w.watching
          trace := w.trace ++ (wtfApp.stopAllWidgets ++ [.closeRedrawChan wtfApp.id]) ++
            [.loadWtfConfigFile wtfApp.configFilePath] ++
            (NewWtfApp env w.apps.length (env.loadWtfConfigFile wtfApp.configFilePath)
              wtfApp.configFilePath).effects
          status := .panic msg } := by
  unfold onConfigChange
  simp only [hrun, hget, WtfApp.Stop, hlive]
  cases hb : (NewWtfApp env w.apps.length (env.loadWtfConfigFile wtfApp.configFilePath)
      wtfApp.configFilePath).out <;> simp [hrun]

/-- C6: when `MakeWidgets` yields no widget, `NewWtfApp` prints its message and ends the
process with status 1 right after the widgets were made: no display, focus tracker or
validator is built, the first widget is not indexed and the redraw loop is not started.
With at least one widget the check is passed: construction goes on with the display, the
focus tracker, the validator and validation, and the message is not printed.  The reload
handler of a live app, for a configuration that yields no widget, ends the process with
status 1 in the same way, after it has stopped the old app and before any `Start`. -/
theorem C6_no_widgets_aborts (env : Env) (id : Nat) (config : Config)
    (configFilePath : String) :
    (env.makeWidgets config = [] →
      (NewWtfApp env id config configFilePath).out = .exit 1 ∧
      (NewWtfApp env id config configFilePath).effects =
        [.newPages, .makeRedrawChan id, .setBeforeDrawFunc, .makeWidgets id,
         .println "No modules were defined. Make sure you have at least one properly defined widget",
         .osExit 1] ∧
      (∀ app, Effect.newDisplay app ∉ (NewWtfApp env id config configFilePath).effects ∧
        Effect.newFocusTracker app ∉ (NewWtfApp env id config configFilePath).effects ∧
        Effect.newModuleValidator app ∉ (NewWtfApp env id config configFilePath).effects ∧
        Effect.validate app ∉ (NewWtfApp env id config configFilePath).effects ∧
        Effect.firstWidget app ∉ (NewWtfApp env id config configFilePath).effects ∧
        Effect.goHandleRedraws app ∉ (NewWtfApp env id config configFilePath).effects)) ∧
    (env.makeWidgets config ≠ [] →
      (∃ rest, (NewWtfApp env id config configFilePath).effects =
        [.newPages, .makeRedrawChan id, .setBeforeDrawFunc, .makeWidgets id,
         .newDisplay id, .newFocusTracker id, .newModuleValidator id, .newGitHubUser id,
         .addPage id, .validate id] ++ rest) ∧
      (∀ msg, Effect.println msg ∉ (NewWtfApp env id config configFilePath).effects) ∧
      (env.validate (env.makeWidgets config) = .ok () →
        ∃ newApp, (NewWtfApp env id config configFilePath).out = .ok newApp ∧
          Effect.goHandleRedraws id ∈ (NewWtfApp env id config configFilePath).effects)) ∧
    (∀ (w : World) (old : Nat) (wtfApp : WtfApp),
      w.status = .ok () → w.apps.get? old = some wtfApp →
      wtfApp.redrawChan.closed = false →
      env.makeWidgets (env.loadWtfConfigFile wtfApp.configFilePath) = [] →
        (onConfigChange env w old).status = .exit 1 ∧
        (onConfigChange env w old).trace =
          w.trace ++ (wtfApp.stopAllWidgets ++ [.closeRedrawChan wtfApp.id]) ++
            [.loadWtfConfigFile wtfApp.configFilePath,
             .newPages, .makeRedrawChan w.apps.length, .setBeforeDrawFunc,
             .makeWidgets w.apps.length,
             .println "No modules were defined. Make sure you have at least one properly defined widget",
             .osExit 1] ∧
        (onConfigChange env w old).apps.length = w.apps.length ∧
        (onConfigChange env w old).watching = w.watching) := by
  refine ⟨?_, ?_, ?_⟩
  · intro h
    rw [NewWtfApp_no_widgets env id config configFilePath h]
    simp
  · intro h
    have hlen : (env.makeWidgets config).length ≠ 0 := by
      intro h0
      exact h (List.length_eq_zero.mp h0)
    unfold NewWtfApp
    simp only [hlen, if_false]
    cases hv : env.validate (env.makeWidgets config) <;> simp
  · intro w old wtfApp hrun hget hlive hnone
    rw [onConfigChange_live env w old wtfApp hrun hget hlive]
    rw [NewWtfApp_no_widgets env _ _ _ hnone]
    simp

/-- C6 at a concrete input: a configuration without widgets, at start-up and at reload. -/
theorem C6_no_widgets_aborts_witness :
    (NewWtfApp emptyEnv 0 { snapshot := 1 } "config.yml").out = .exit 1 ∧
    (onConfigChange emptyEnv sampleWorld 0).status = .exit 1 :=
  ⟨((C6_no_widgets_aborts emptyEnv 0 { snapshot := 1 } "config.yml").1 rfl).1,
   ((C6_no_widgets_aborts emptyEnv 0 { snapshot := 1 } "config.yml").2.2 sampleWorld 0
      sampleApp (by decide) (by decide) (by decide) rfl).1⟩

/-- C7: the handler of one configuration-change event on a live app performs, in this
order: `Stop()` on each widget of the old app in slice order (once each), the close of the
old redraw channel, the reload of the configuration, the construction of a new `WtfApp`,
and, when the construction returned, `utils.Init` and the new app's `Start`, which launches
the new widgets' Schedule loops.  No Schedule loop is launched before that point, the new
app has a widget list and an open, empty redraw channel of its own, and the old app keeps its
widget list. -/
theorem C7_reload_sequence (env : Env) (w : World) (old : Nat) (wtfApp : WtfApp)
    (hrun : w.status = .ok ()) (hget : w.apps.get? old = some wtfApp)
    (hlive : wtfApp.redrawChan.closed = false) :
    (onConfigChange env w old).trace =
      w.trace ++
      (List.range wtfApp.widgets.length).map (Effect.widgetStop wtfApp.id) ++
      [.closeRedrawChan wtfApp.id] ++
      [.loadWtfConfigFile wtfApp.configFilePath] ++
      (NewWtfApp env w.apps.length (env.loadWtfConfigFile wtfApp.configFilePath)
        wtfApp.configFilePath).effects ++
      (match (NewWtfApp env w.apps.length (env.loadWtfConfigFile wtfApp.configFilePath)
          wtfApp.configFilePath).out with
        | .ok newApp =>
          [.utilsInit] ++
          (List.range newApp.widgets.length).map (Effect.goSchedule newApp.id) ++
          [.goWatchForConfigChanges newApp.id, .goGhUserLoad newApp.id]
        | .exit _ => []
        | .panic _ => []) ∧
    (∀ app widget, Effect.goSchedule app widget ∉
      (List.range wtfApp.widgets.length).map (Effect.widgetStop wtfApp.id) ++
      [.closeRedrawChan wtfApp.id] ++
      [.loadWtfConfigFile wtfApp.configFilePath] ++
      (NewWtfApp env w.apps.length (env.loadWtfConfigFile wtfApp.configFilePath)
        wtfApp.configFilePath).effects) ∧
    (onConfigChange env w old).apps.get? old =
      some { wtfApp with redrawChan := { wtfApp.redrawChan with closed := true } } ∧
    (∀ newApp,
      (NewWtfApp env w.apps.length (env.loadWtfConfigFile wtfApp.configFilePath)
        wtfApp.configFilePath).out = .ok newApp →
      (onConfigChange env w old).apps.get? w.apps.length = some newApp ∧
      (onConfigChange env w old).status = .ok () ∧
      newApp.id = w.apps.length ∧
      newApp.widgets = env.makeWidgets (env.loadWtfConfigFile wtfApp.configFilePath) ∧
      newApp.widgets ≠ [] ∧
      newApp.redrawChan = { slot := none, closed := false }) := by
  have hlt : old < w.apps.length := by
    rcases Nat.lt_or_ge old w.apps.length with h | h
    · exact h
    · rw [List.get?_eq_none.mpr h] at hget
      cases hget
  rw [onConfigChange_live env w old wtfApp hrun hget hlive]
  refine ⟨?_, ?_, ?_, ?_⟩
  · cases hb : (NewWtfApp env w.apps.length (env.loadWtfConfigFile wtfApp.configFilePath)
        wtfApp.configFilePath).out <;>
      simp [WtfApp.stopAllWidgets, WtfApp.Start, WtfApp.scheduleWidgets]
  · intro app widget
    have := NewWtfApp_no_goSchedule env w.apps.length
      (env.loadWtfConfigFile wtfApp.configFilePath) wtfApp.configFilePath app widget
    simp [this]
  · cases hb : (NewWtfApp env w.apps.length (env.loadWtfConfigFile wtfApp.configFilePath)
        wtfApp.configFilePath).out <;>
      simp [List.get?_eq_getElem?, List.getElem?_append, List.getElem?_set, hlt]
  · intro newApp hb
    obtain ⟨hnew, hne⟩ := NewWtfApp_ok env _ _ _ newApp hb
    rw [hb]
    refine ⟨?_, rfl, ?_, ?_, ?_, ?_⟩
    · simp [List.get?_eq_getElem?, List.getElem?_append]
    · rw [hnew]
    · rw [hnew]
    · rw [hnew]; exact hne
    · rw [hnew]

/-- C7 at a concrete input: the first reload of the sample process, effect by effect. -/
theorem C7_reload_sequence_witness :
    (onConfigChange sampleEnv sampleWorld 0).trace =
      sampleWorld.trace ++
      [.widgetStop 0 0, .widgetStop 0 1, .closeRedrawChan 0, .loadWtfConfigFile "config.yml",
       .newPages, .makeRedrawChan 1, .setBeforeDrawFunc, .makeWidgets 1,
       .newDisplay 1, .newFocusTracker 1, .newModuleValidator 1, .newGitHubUser 1,
       .addPage 1, .validate 1, .firstWidget 1, .setBackgroundColor 1, .setInputCapture 1,
       .setRoot 1, .goHandleRedraws 1, .utilsInit, .goSchedule 1 0, .goSchedule 1 1,
       .goWatchForConfigChanges 1, .goGhUserLoad 1] :=
  (C7_reload_sequence sampleEnv sampleWorld 0 sampleApp (by decide) (by decide)
    (by decide)).1.trans (by decide)

/-- C8 fails at the second configuration-change event.  After the first event one app is
live (app 1, with the two widgets of app 0) and app 0 has been stopped once, but the
watchers of both apps are running.  At the second event the handler of app 0 runs again:
its widgets are stopped a second time and the close of its closed redraw channel panics,
whether that handler runs before or after the handler of app 1; in the second case the
Schedule loops of app 2 have been launched by then. -/
theorem C8_second_reload_stops_first_app_twice :
    (configChanges sampleEnv 1 sampleWorld).status = .ok () ∧
    (liveApps (configChanges sampleEnv 1 sampleWorld)).map WtfApp.id = [1] ∧
    (liveApps (configChanges sampleEnv 1 sampleWorld)).map (fun a => a.widgets.length) = [2] ∧
    stopCalls (configChanges sampleEnv 1 sampleWorld) 0 = 1 ∧
    (configChanges sampleEnv 1 sampleWorld).watching = [0, 1] ∧
    (configChanges sampleEnv 2 sampleWorld).status = .panic "close of closed channel" ∧
    stopCalls (configChanges sampleEnv 2 sampleWorld) 0 = 2 ∧
    (configChange sampleEnv (configChanges sampleEnv 1 sampleWorld) [1, 0]).status
      = .panic "close of closed channel" ∧
    stopCalls (configChange sampleEnv (configChanges sampleEnv 1 sampleWorld) [1, 0]) 0 = 2 ∧
    Effect.goSchedule 2 0 ∈
      (configChange sampleEnv (configChanges sampleEnv 1 sampleWorld) [1, 0]).trace := by
  decide

/-! ## The GitLab project loader -/

namespace Gitlab

namespace GitlabProject

theorem returned_value {α : Type} (r : Response α) (sent : List Request) :
    (returned r sent).value = (if r.err = none then r.value else none) ∧
    (returned r sent).sent = sent ∧ (returned r sent).err = r.err := by
  unfold returned
  cases h : r.err <;> simp

/-- C10: for a project with a non-nil context, whatever the API answers, `Refresh` returns
to its caller (it neither panics nor ends the process) after exactly six API calls, made in
the order of the six loads whether or not earlier ones failed.  Afterwards each of the six
fields holds the value of its call when that call reported no error and nil when it
reported one; the value held before is gone.  Hence `IssueCount` and `StarCount` are 0 after
a failed project load and `MergeRequestCount` is 0 after a failed merge-request load. -/
theorem C10_refresh_keeps_failures_local (project : GitlabProject) (ctx : Gitlab.context)
    (hctx : project.context = some ctx) (sent : List Request) :
    let all : ListOptions := { State := some "opened", AssigneeID := none, AuthorID := none }
    let assigned : ListOptions :=
      { State := some "opened", AssigneeID := some ctx.user.ID, AuthorID := none }
    let authored : ListOptions :=
      { State := some "opened", AssigneeID := none, AuthorID := some ctx.user.ID }
    let q1 := Request.ListProjectMergeRequests project.path all
    let q2 := Request.ListProjectMergeRequests project.path assigned
    let q3 := Request.ListProjectMergeRequests project.path authored
    let q4 := Request.ListProjectIssues project.path assigned
    let q5 := Request.ListProjectIssues project.path authored
    let q6 := Request.GetProject project.path
    let r1 := ctx.client.ListProjectMergeRequests sent project.path all
    let r2 := ctx.client.ListProjectMergeRequests (sent ++ [q1]) project.path assigned
    let r3 := ctx.client.ListProjectMergeRequests (sent ++ [q1, q2]) project.path authored
    let r4 := ctx.client.ListProjectIssues (sent ++ [q1, q2, q3]) project.path assigned
    let r5 := ctx.client.ListProjectIssues (sent ++ [q1, q2, q3, q4]) project.path authored
    let r6 := ctx.client.GetProject (sent ++ [q1, q2, q3, q4, q5]) project.path
    ∃ after : GitlabProject,
      project.Refresh sent = .ok (after, sent ++ [q1, q2, q3, q4, q5, q6]) ∧
      after.MergeRequests = (if r1.err = none then r1.value else none) ∧
      after.AssignedMergeRequests = (if r2.err = none then r2.value else none) ∧
      after.AuthoredMergeRequests = (if r3.err = none then r3.value else none) ∧
      after.AssignedIssues = (if r4.err = none then r4.value else none) ∧
      after.AuthoredIssues = (if r5.err = none then r5.value else none) ∧
      after.RemoteProject = (if r6.err = none then r6.value else none) ∧
      after.path = project.path ∧
      (r6.err ≠ none → after.IssueCount = 0 ∧ after.StarCount = 0) ∧
      (r1.err ≠ none → after.MergeRequestCount = 0) := by
  intro all assigned authored q1 q2 q3 q4 q5 q6 r1 r2 r3 r4 r5 r6
  refine ⟨{ project with
      MergeRequests := if r1.err = none then r1.value else none
      AssignedMergeRequests := if r2.err = none then r2.value else none
      AuthoredMergeRequests := if r3.err = none then r3.value else none
      AssignedIssues := if r4.err = none then r4.value else none
      AuthoredIssues := if r5.err = none then r5.value else none
      RemoteProject := if r6.err = none then r6.value else none },
    ?_, rfl, rfl, rfl, rfl, rfl, rfl, rfl, ?_, ?_⟩
  · unfold Refresh
    simp only [loadMergeRequests, loadAssignedMergeRequests, loadAuthoredMergeRequests,
      loadAssignedIssues, loadAuthoredIssues, loadRemoteProject, hctx, andThen,
      returned_value, List.append_assoc, List.singleton_append, List.cons_append,
      List.nil_append]
  · intro h6
    simp [IssueCount, StarCount, h6]
  · intro h1
    simp [MergeRequestCount, h1]

/-- C10 at a concrete input: the sample project against the flaky remote side. -/
theorem C10_refresh_keeps_failures_local_witness :
    ∃ after : GitlabProject,
      sampleProject.Refresh [] = .ok (after,
        [.ListProjectMergeRequests "group/repo" ⟨some "opened", none, none⟩,
         .ListProjectMergeRequests "group/repo" ⟨some "opened", some 42, none⟩,
         .ListProjectMergeRequests "group/repo" ⟨some "opened", none, some 42⟩,
         .ListProjectIssues "group/repo" ⟨some "opened", some 42, none⟩,
         .ListProjectIssues "group/repo" ⟨some "opened", none, some 42⟩,
         .GetProject "group/repo"]) ∧
      after.MergeRequests = none ∧
      after.AssignedMergeRequests = some [{ IID := 7 }, { IID := 8 }] ∧
      after.AssignedIssues = none ∧
      after.RemoteProject = none ∧
      after.IssueCount = 0 ∧ after.StarCount = 0 ∧ after.MergeRequestCount = 0 := by
  obtain ⟨after, h, h1, h2, _, h4, _, h6, _, hc, hm⟩ :=
    C10_refresh_keeps_failures_local sampleProject
      { client := flakyClient, user := { ID := 42 } } rfl []
  have e6 : (flakyClient.GetProject
      ([] ++ [.ListProjectMergeRequests "group/repo" ⟨some "opened", none, none⟩,
         .ListProjectMergeRequests "group/repo" ⟨some "opened", some 42, none⟩,
         .ListProjectMergeRequests "group/repo" ⟨some "opened", none, some 42⟩,
         .ListProjectIssues "group/repo" ⟨some "opened", some 42, none⟩,
         .ListProjectIssues "group/repo" ⟨some "opened", none, some 42⟩])
      "group/repo").err ≠ none := by decide
  have e1 : (flakyClient.ListProjectMergeRequests []
      "group/repo" ⟨some "opened", none, none⟩).err ≠ none := by decide
  exact ⟨after, h, h1, h2, h4, h6, (hc e6).1, (hc e6).2, hm e1⟩

end GitlabProject

end Gitlab

end Wtf
